import Mathlib

/-!
Shallow embedding of the Simple_Messager service layer
(`flaskr/services/email_services.py`, `flaskr/services/user_services.py`),
its domain entities (`flaskr/models/email_model.py`, `flaskr/models/user_model.py`)
and its repositories (`flaskr/repositories/email_repo.py`,
`flaskr/repositories/user_repo.py`).

The relational store is modelled as an explicit `Store` value; every SQL
call of the repositories becomes a pure function on `Store`.  Python
exceptions become `Except Err`; the `try/except` dispatch of each handler
becomes a `match` on the error constructor, reproducing the
`ValueError -> 400`, `LookupError -> 404`, `KeyError -> 400`,
`Exception -> 500` mapping of the source.  Python `None` becomes
`Option`, and Python string truthiness (`not s`) becomes
emptiness/`Option.isNone` tests.
-/

namespace SimpleMessager

/-- A row of the `email` table:
`email(id PK autoincrement, message_subject, body, sender_username,
recipient_username, created_at default-now)`.  The four text columns are
`Option String` because the INSERT in `EmailRepository.send_email` binds
Python values that may be `None` (stored as SQL NULL). -/
structure EmailRow where
  id : Int
  message_subject : Option String
  body : Option String
  sender_username : Option String
  recipient_username : Option String
  created_at : Int
  deriving Repr, DecidableEq

/-- A row of the `user` table: `user(username PK, password)`. -/
structure UserRow where
  username : String
  password : String
  deriving Repr, DecidableEq

/-- The relational store: the `user` table, the `email` table and the
autoincrement counter for `email.id`. -/
structure Store where
  users : List UserRow
  emails : List EmailRow
  nextId : Int
  deriving Repr, DecidableEq

/-- Python exceptions raised by the service layer. -/
inductive Err where
  | valueError (msg : String)
  | lookupError (msg : String)
  | keyError (msg : String)
  deriving Repr, DecidableEq

/-- A handler's JSON response body: either a success payload or an
`{"error": msg}` payload. -/
inductive Resp where
  | message (msg : String)
  | emailPayload (row : Nat)
  | emails (rows : List EmailRow)
  | error (msg : String)
  deriving Repr, DecidableEq

/-! ## Repository layer -/

/-- `UserRepository.user_exists`:
`SELECT 1 FROM user WHERE username = ?` followed by `fetchone() is not None`. -/
def user_exists (s : Store) (username : String) : Bool :=
  s.users.any (fun u => u.username == username)

/-- `UserRepository.register_user`: `INSERT INTO user (username, password)
VALUES (?, ?)`.  A successful single-row INSERT has `rowcount = 1`. -/
def register_user_repo (s : Store) (username password : String) : Store × Nat :=
  ({ s with users := s.users ++ [⟨username, password⟩] }, 1)

/-- `EmailRepository.email_exists`:
`SELECT 1 FROM email WHERE id = ?` followed by `fetchone() is not None`.
A `None` id binds SQL NULL, and `id = NULL` matches no row. -/
def email_exists (s : Store) (email_id : Option Int) : Bool :=
  match email_id with
  | none => false
  | some i => s.emails.any (fun e => e.id == i)

/-- `EmailRepository.get_email`: the query is `SELECT 1 FROM email WHERE
id = ?` (not `SELECT *`), so `fetchone()` yields the single-column row
`(1,)` when the id exists and `None` otherwise. -/
def get_email (s : Store) (email_id : Option Int) : Option Nat :=
  if email_exists s email_id then some 1 else none

/-- `EmailRepository.delete_email`: `DELETE FROM email WHERE id = ?`;
the returned cursor's `rowcount` is the number of rows deleted. -/
def delete_email_repo (s : Store) (email_id : Option Int) : Store × Nat :=
  match email_id with
  | none => (s, 0)
  | some i =>
    ({ s with emails := s.emails.filter (fun e => !(e.id == i)) },
     (s.emails.filter (fun e => e.id == i)).length)

/-- The `ORDER BY created_at DESC` ordering used by the email fetches. -/
def createdDesc (a b : EmailRow) : Prop :=
  b.created_at ≤ a.created_at

instance : DecidableRel createdDesc := fun a b =>
  inferInstanceAs (Decidable (b.created_at ≤ a.created_at))

instance : IsTotal EmailRow createdDesc :=
  ⟨fun a b => le_total b.created_at a.created_at⟩

instance : IsTrans EmailRow createdDesc :=
  ⟨fun _ _ _ h1 h2 => le_trans h2 h1⟩

/-- `EmailRepository.get_all_emails_to_user`:
`SELECT * FROM email WHERE recipient_username = ? ORDER BY created_at DESC`.
The WHERE clause keeps the rows whose `recipient_username` column equals
the bound string (SQL NULL equals nothing), and the ORDER BY sorts them
by `created_at` descending. -/
def get_all_emails_to_user (s : Store) (recipient_username : String) : List EmailRow :=
  List.insertionSort createdDesc
    (s.emails.filter (fun e => e.recipient_username == some recipient_username))

/-- `EmailRepository.get_indexed_emails_to_user`: the same query with
`LIMIT ? OFFSET ?`.  SQLite treats a negative OFFSET as 0 and a negative
LIMIT as "no limit". -/
def get_indexed_emails_to_user (s : Store) (limit offset : Int)
    (recipient_username : String) : List EmailRow :=
  let sorted := get_all_emails_to_user s recipient_username
  let dropped := sorted.drop offset.toNat
  if limit < 0 then dropped else dropped.take limit.toNat

/-- `EmailRepository.send_email`: `INSERT INTO email (message_subject,
body, sender_username, recipient_username) VALUES (?, ?, ?, ?)`; the
store assigns the autoincrement id and `created_at` (`now`). -/
def send_email_repo (s : Store) (now : Int)
    (message_subject body sender_username recipient_username : Option String) : Store :=
  { s with
    emails := s.emails ++
      [⟨s.nextId, message_subject, body, sender_username, recipient_username, now⟩],
    nextId := s.nextId + 1 }

/-! ## Email entity (`flaskr/models/email_model.py`) -/

/-- Python truthiness of an optional string: `None` and `""` are falsy. -/
def truthyStr : Option String → Bool
  | none => false
  | some s => !s.isEmpty

/-- The fields an `Email` instance carries after `__init__` stores them.
The first field is the constructor's first positional parameter `db`. -/
structure EmailObj where
  db : Option String
  message_subject : Option String
  body : Option String
  sender_username : Option String
  recipient_username : Option String
  deriving Repr, DecidableEq

/-- `Email.__init__(self, db=None, message_subject=None, body=None,
sender_username=None, recipient_username=None)`: raises
`ValueError("All fields must be provided")` when any of
`message_subject`, `body`, `sender_username`, `recipient_username`
is falsy, and otherwise stores all five parameters. -/
def Email.init (db message_subject body sender_username recipient_username :
    Option String) : Except Err EmailObj :=
  if truthyStr message_subject && truthyStr body &&
      truthyStr sender_username && truthyStr recipient_username then
    .ok ⟨db, message_subject, body, sender_username, recipient_username⟩
  else
    .error (.valueError "All fields must be provided")

/-- `Email.is_valid`: empty subject or body raises; subject longer than
255 raises; body longer than 5000 raises; otherwise returns `True`. -/
def Email.is_valid (e : EmailObj) : Except Err Bool :=
  if !truthyStr e.message_subject || !truthyStr e.body then
    .error (.valueError "Subject and body cannot be empty.")
  else if (e.message_subject.getD "").length > 255 then
    .error (.valueError "Subject cannot exceed 255 characters.")
  else if (e.body.getD "").length > 5000 then
    .error (.valueError "Body cannot exceed 5000 characters.")
  else
    .ok true

/-! ## Email services (`flaskr/services/email_services.py`) -/

/-- `EmailServices.get_limit_and_offset`: the `isinstance(_, int)` guards
always hold in this embedding (both arguments are integers); the body
then returns `(stop_index - start_index, start_index)` when
`stop_index > start_index` and raises `ValueError` otherwise.  There is
no test on the sign of either index. -/
def get_limit_and_offset (start_index stop_index : Int) : Except Err (Int × Int) :=
  if stop_index > start_index then
    .ok (stop_index - start_index, start_index)
  else
    .error (.valueError "Invalid start or stop index")

/-- `EmailServices.retrieve_emails`: paginated fetch when both bounds are
present, unbounded fetch otherwise; the repository's list is returned
as-is. -/
def retrieve_emails (s : Store) (start stop : Option Int)
    (recipient_username : String) : Except Err (List EmailRow) :=
  match start, stop with
  | some a, some b =>
    match get_limit_and_offset a b with
    | .ok (limit, offset) =>
      .ok (get_indexed_emails_to_user s limit offset recipient_username)
    | .error e => .error e
  | _, _ => .ok (get_all_emails_to_user s recipient_username)

/-- `EmailServices.check_email_id`: `None` raises; a non-integer raises
(unrepresentable here, where the id is typed); a negative id raises. -/
def check_email_id (email_id : Option Int) : Except Err Unit :=
  match email_id with
  | none => .error (.valueError "Email ID cannot be None.")
  | some i =>
    if i < 0 then .error (.valueError "Email ID must be larger than 0.")
    else .ok ()

/-- `EmailServices._get_email`: fetch via the repository, raising
`LookupError` when the fetch returns `None`. -/
def _get_email (s : Store) (email_id : Option Int) : Except Err Nat :=
  match get_email s email_id with
  | none => .error (.lookupError "The email with the provided ID could not be found.")
  | some r => .ok r

/-- `EmailServices.handle_get_email`: validates the id, fetches the row,
and on success returns `{"email": row}` with status 201; `ValueError`
maps to 400 and `LookupError` to 404.  (`keyError` never arises on this
path.) -/
def handle_get_email (s : Store) (email_id : Option Int) : Resp × Nat :=
  match check_email_id email_id with
  | .error (.valueError m) => (.error m, 400)
  | .error (.lookupError m) => (.error m, 404)
  | .error (.keyError m) => (.error m, 400)
  | .ok _ =>
    match _get_email s email_id with
    | .ok r => (.emailPayload r, 201)
    | .error (.valueError m) => (.error m, 400)
    | .error (.lookupError m) => (.error m, 404)
    | .error (.keyError m) => (.error m, 400)

/-- The send-request JSON payload; an absent key is `none`. -/
structure SendPayload where
  message_subject : Option String
  body : Option String
  sender_username : Option String
  recipient_username : Option String
  deriving Repr, DecidableEq

/-- `EmailServices.fetch_send_args`: `data.get(key, '')` for the four
fields. -/
def fetch_send_args (data : SendPayload) : String × String × String × String :=
  (data.message_subject.getD "", data.body.getD "",
   data.sender_username.getD "", data.recipient_username.getD "")

/-- `EmailServices._validate_send_args`: empty subject, sender or
recipient raises `ValueError` (in that order); the body is not checked
here. -/
def _validate_send_args (message_subject sender_username recipient_username :
    String) : Except Err Unit :=
  if message_subject.isEmpty then
    .error (.valueError "Message subject cannot be empty.")
  else if sender_username.isEmpty then
    .error (.valueError "The email must have a sender.")
  else if recipient_username.isEmpty then
    .error (.valueError "The email must have a recipient.")
  else
    .ok ()

/-- `EmailServices.check_valid_users`: the recipient's existence is
checked first, then the sender's; a missing user raises `LookupError`. -/
def check_valid_users (s : Store) (recipient_username sender_username : String) :
    Except Err Unit :=
  if !user_exists s recipient_username then
    .error (.lookupError "The recipient does not exist in the database.")
  else if !user_exists s sender_username then
    .error (.lookupError "The sender does not exist in the database.")
  else
    .ok ()

/-- `EmailServices.create_email`: extract the fields, validate them,
check both users, then call
`Email(message_subject, body, sender_username, recipient_username)`.
These four positional arguments bind to the constructor's parameters
`db`, `message_subject`, `body` and `sender_username` in that order
(the first declared parameter of `Email.__init__` is `db`), so
`recipient_username` keeps its default `None`. -/
def create_email (s : Store) (json_data : SendPayload) : Except Err EmailObj :=
  let (message_subject, body, sender_username, recipient_username) :=
    fetch_send_args json_data
  match _validate_send_args message_subject sender_username recipient_username with
  | .error e => .error e
  | .ok _ =>
    match check_valid_users s recipient_username sender_username with
    | .error e => .error e
    | .ok _ =>
      Email.init (some message_subject) (some body) (some sender_username)
        (some recipient_username) none

/-- `EmailServices.handle_send_email`: build the email, insert it via
`EmailRepository.send_email`, and answer 201; `ValueError` maps to 400,
`LookupError` to 404, any other exception to 500.  The store after the
call is returned alongside the response. -/
def handle_send_email (s : Store) (now : Int) (json_data : SendPayload) :
    (Resp × Nat) × Store :=
  match create_email s json_data with
  | .ok email =>
    ((.message "Email was successfully sent.", 201),
     send_email_repo s now email.message_subject email.body
       email.sender_username email.recipient_username)
  | .error (.valueError m) => ((.error m, 400), s)
  | .error (.lookupError m) => ((.error m, 404), s)
  | .error (.keyError m) =>
    ((.error ("An unexpected error occurred: " ++ m), 500), s)

/-- Render an optional id the way Python string interpolation would. -/
def idStr : Option Int → String
  | none => "None"
  | some i => toString i

/-- `EmailServices._validate_email_exists`: raises `LookupError` when the
repository's existence check fails. -/
def _validate_email_exists (s : Store) (email_id : Option Int) : Except Err Unit :=
  if email_exists s email_id then .ok ()
  else .error (.lookupError ("Email with ID " ++ idStr email_id ++
    " not found in database."))

/-- `EmailServices._delete_email_from_db`: run the repository delete and
raise `ValueError` when `rowcount <= 0`. -/
def _delete_email_from_db (s : Store) (email_id : Option Int) : Except Err Store :=
  let (s2, rowcount) := delete_email_repo s email_id
  if rowcount ≤ 0 then .error (.valueError "The email could not be deleted.")
  else .ok s2

/-- `EmailServices.handle_delete_email`: existence check, then delete;
success answers 200; `ValueError` maps to 400, `LookupError` to 404,
any other exception to 500.  No id validation (`check_email_id`) is
performed on this path. -/
def handle_delete_email (s : Store) (email_id : Option Int) :
    (Resp × Nat) × Store :=
  match _validate_email_exists s email_id with
  | .error (.valueError m) => ((.error m, 400), s)
  | .error (.lookupError m) => ((.error m, 404), s)
  | .error (.keyError m) =>
    ((.error ("An unexpected error occurred: " ++ m), 500), s)
  | .ok _ =>
    match _delete_email_from_db s email_id with
    | .ok s2 =>
      ((.message ("Email with id " ++ idStr email_id ++
        " was successfully deleted from the database."), 200), s2)
    | .error (.valueError m) => ((.error m, 400), s)
    | .error (.lookupError m) => ((.error m, 404), s)
    | .error (.keyError m) =>
      ((.error ("An unexpected error occurred: " ++ m), 500), s)

/-! ## User entity and services (`flaskr/models/user_model.py`,
`flaskr/services/user_services.py`) -/

/-- `User.__init__`: stores username and password unchanged. -/
structure UserObj where
  username : String
  password : String
  deriving Repr, DecidableEq

/-- The registration JSON payload; an absent key is `none`. -/
structure RegisterPayload where
  username : Option String
  password : Option String
  deriving Repr, DecidableEq

/-- `UserServices._fetch_register_args`: `data["username"]` is evaluated
first, so a missing username raises its `KeyError` before a missing
password does. -/
def _fetch_register_args (data : RegisterPayload) : Except Err (String × String) :=
  match data.username, data.password with
  | none, _ => .error (.keyError "Missing required field: 'username'")
  | some _, none => .error (.keyError "Missing required field: 'password'")
  | some u, some p => .ok (u, p)

/-- `UserServices._check_username_validity`: empty raises, then length
below 2 raises. -/
def _check_username_validity (username : String) : Except Err Unit :=
  if username.isEmpty then .error (.valueError "A user must have a username.")
  else if username.length < 2 then
    .error (.valueError "Username must be at least 2 characters long.")
  else .ok ()

/-- `UserServices._check_password_validity`: empty raises, then length
below 2 raises. -/
def _check_password_validity (password : String) : Except Err Unit :=
  if password.isEmpty then .error (.valueError "A user must have a password.")
  else if password.length < 2 then
    .error (.valueError "The password must be at least 2 characters long.")
  else .ok ()

/-- `UserServices._check_user_validity`: username validity, then password
validity, then the duplicate check against the store. -/
def _check_user_validity (s : Store) (username password : String) :
    Except Err Unit :=
  match _check_username_validity username with
  | .error e => .error e
  | .ok _ =>
    match _check_password_validity password with
    | .error e => .error e
    | .ok _ =>
      if user_exists s username then
        .error (.valueError "Username already exists.")
      else .ok ()

/-- `UserServices.create_user`: extract the fields, validate them, and
build the `User` object. -/
def create_user (s : Store) (data : RegisterPayload) : Except Err UserObj :=
  match _fetch_register_args data with
  | .error e => .error e
  | .ok (username, password) =>
    match _check_user_validity s username password with
    | .error e => .error e
    | .ok _ => .ok ⟨username, password⟩

/-- `UserServices._register_user`: run the repository insert and raise
`ValueError` when `rowcount <= 0`. -/
def _register_user (s : Store) (user : UserObj) : Except Err Store :=
  let (s2, rowcount) := register_user_repo s user.username user.password
  if rowcount ≤ 0 then .error (.valueError "Could not register user.")
  else .ok s2

/-- `UserServices.handle_register_user`: create the user, insert it, and
answer 201; `ValueError` maps to 400, `KeyError` to 400, any other
exception to 500.  The store after the call is returned alongside the
response. -/
def handle_register_user (s : Store) (data : RegisterPayload) :
    (Resp × Nat) × Store :=
  match create_user s data with
  | .error (.valueError m) => ((.error m, 400), s)
  | .error (.keyError m) => ((.error m, 400), s)
  | .error (.lookupError _) =>
    ((.error "There was an error when registering a user.", 500), s)
  | .ok user =>
    match _register_user s user with
    | .ok s2 =>
      ((.message ("User " ++ user.username ++ " registered successfully."), 201), s2)
    | .error (.valueError m) => ((.error m, 400), s)
    | .error _ =>
      ((.error "There was an error when registering a user.", 500), s)

/-! ## Theorems -/

/-- Calling `Email.__init__` with its last parameter left at the default
`None` always raises `ValueError("All fields must be provided")`. -/
theorem Email.init_default_recipient (db m b se : Option String) :
    Email.init db m b se none =
      .error (.valueError "All fields must be provided") := by
  simp [Email.init, truthyStr]

/-- C1: for every pair of integers start, stop with stop > start,
`get_limit_and_offset` returns `(stop - start, start)`; for every pair
with stop ≤ start it fails with the InvalidRange `ValueError`. -/
theorem c1_compute_limit_offset_contract (start stop : Int) :
    (stop > start →
      get_limit_and_offset start stop = .ok (stop - start, start)) ∧
    (stop ≤ start →
      get_limit_and_offset start stop =
        .error (.valueError "Invalid start or stop index")) := by
  constructor
  · intro h
    simp [get_limit_and_offset, h]
  · intro h
    simp [get_limit_and_offset, not_lt.mpr h]

/-- C1 witness: the contract evaluated at (2, 5) and at (5, 2). -/
theorem c1_compute_limit_offset_contract_witness :
    get_limit_and_offset 2 5 = .ok (3, 2) ∧
    get_limit_and_offset 5 2 =
      .error (.valueError "Invalid start or stop index") :=
  ⟨(c1_compute_limit_offset_contract 2 5).1 (by decide),
   (c1_compute_limit_offset_contract 5 2).2 (by decide)⟩

/-- C3 counterexample: start = -2 and stop = -1 are both negative with
stop > start, yet `get_limit_and_offset` succeeds with (1, -2) instead
of failing with InvalidRange. -/
theorem c3_counterexample :
    get_limit_and_offset (-2) (-1) = .ok (1, -2) := by
  rfl

/-- C3 amended: `get_limit_and_offset` has no negativity guard; even
when start or stop is negative, the outcome is governed solely by the
comparison stop > start. -/
theorem c3_no_negative_guard (start stop : Int)
    (hneg : start < 0 ∨ stop < 0) :
    (stop > start →
      get_limit_and_offset start stop = .ok (stop - start, start)) ∧
    (stop ≤ start →
      get_limit_and_offset start stop =
        .error (.valueError "Invalid start or stop index")) := by
  constructor
  · intro h
    simp [get_limit_and_offset, h]
  · intro h
    simp [get_limit_and_offset, not_lt.mpr h]

/-- C3 amended witness: the negative pairs (-2, -1) and (-1, -2). -/
theorem c3_no_negative_guard_witness :
    get_limit_and_offset (-2) (-1) = .ok (1, -2) ∧
    get_limit_and_offset (-1) (-2) =
      .error (.valueError "Invalid start or stop index") :=
  ⟨(c3_no_negative_guard (-2) (-1) (Or.inl (by decide))).1 (by decide),
   (c3_no_negative_guard (-1) (-2) (Or.inl (by decide))).2 (by decide)⟩

/-- C2: even on a fully valid request (all four fields non-empty and
within the length limits, both users registered), `handle_send_email`
answers 400 with the constructor's "All fields must be provided" error
and leaves the store unchanged: the call
`Email(message_subject, body, sender_username, recipient_username)`
binds `message_subject` to the constructor's first parameter `db`, so
`recipient_username` stays `None` and `__init__` always raises.  The
claim (send succeeds and returns the new message's identity) never
holds. -/
theorem c2_send_message_never_succeeds (s : Store) (now : Int)
    (subj body sender recip : String)
    (hsubj : subj ≠ "") (hbody : body ≠ "")
    (hsender : sender ≠ "") (hrecip : recip ≠ "")
    (hsubjLen : subj.length ≤ 255) (hbodyLen : body.length ≤ 5000)
    (hs : user_exists s sender = true) (hr : user_exists s recip = true) :
    handle_send_email s now ⟨some subj, some body, some sender, some recip⟩ =
      ((.error "All fields must be provided", 400), s) := by
  simp [handle_send_email, create_email, fetch_send_args,
    _validate_send_args, check_valid_users, hs, hr,
    Email.init_default_recipient, String.isEmpty_iff, hsubj, hsender, hrecip]

/-- C2 witness: a concrete valid request against a store holding both
users. -/
theorem c2_send_message_never_succeeds_witness :
    handle_send_email ⟨[⟨"alice", "pw"⟩, ⟨"bob", "pw"⟩], [], 1⟩ 7
        ⟨some "hi", some "there", some "alice", some "bob"⟩ =
      ((.error "All fields must be provided", 400),
       ⟨[⟨"alice", "pw"⟩, ⟨"bob", "pw"⟩], [], 1⟩) :=
  c2_send_message_never_succeeds _ 7 "hi" "there" "alice" "bob"
    (by decide) (by decide) (by decide) (by decide)
    (by decide) (by decide) (by decide) (by decide)

/-- C8: on a request whose subject exceeds 255 characters (other fields
non-empty, both users registered), the entity validator `Email.is_valid`
is never reached: the call fails with the constructor's
"All fields must be provided" `ValueError` (400), not with the TooLong
error that `Email.is_valid` would produce on those fields (second
conjunct) — no call site of `is_valid` exists in the service layer. -/
theorem c8_too_long_subject_not_validated (s : Store) (now : Int)
    (subj body sender recip : String)
    (hsubj : subj ≠ "") (hbody : body ≠ "")
    (hsender : sender ≠ "") (hrecip : recip ≠ "")
    (hlong : 255 < subj.length)
    (hs : user_exists s sender = true) (hr : user_exists s recip = true) :
    handle_send_email s now ⟨some subj, some body, some sender, some recip⟩ =
      ((.error "All fields must be provided", 400), s) ∧
    Email.is_valid ⟨none, some subj, some body, some sender, some recip⟩ =
      .error (.valueError "Subject cannot exceed 255 characters.") := by
  constructor
  · simp [handle_send_email, create_email, fetch_send_args,
      _validate_send_args, check_valid_users, hs, hr,
      Email.init_default_recipient, String.isEmpty_iff, hsubj, hsender, hrecip]
  · simp [Email.is_valid, truthyStr, String.isEmpty_iff, hsubj, hbody, hlong]

set_option maxRecDepth 4000 in
/-- C8 witness: a 256-character subject on a store holding both users. -/
theorem c8_too_long_subject_not_validated_witness :
    handle_send_email ⟨[⟨"alice", "pw"⟩, ⟨"bob", "pw"⟩], [], 1⟩ 7
        ⟨some (String.mk (List.replicate 256 'a')), some "b",
         some "alice", some "bob"⟩ =
      ((.error "All fields must be provided", 400),
       ⟨[⟨"alice", "pw"⟩, ⟨"bob", "pw"⟩], [], 1⟩) ∧
    Email.is_valid ⟨none, some (String.mk (List.replicate 256 'a')),
        some "b", some "alice", some "bob"⟩ =
      .error (.valueError "Subject cannot exceed 255 characters.") :=
  c8_too_long_subject_not_validated _ 7 _ "b" "alice" "bob"
    (by decide) (by decide) (by decide) (by decide)
    (by decide) (by decide) (by decide)

/-- C5 counterexample: a send request with a nonexistent sender (the
store has no users at all) but an empty subject fails with the 400
"Message subject cannot be empty." `ValueError`, not with UserNotFound,
because `_validate_send_args` runs before `check_valid_users`. -/
theorem c5_counterexample :
    handle_send_email ⟨[], [], 1⟩ 0
        ⟨some "", some "b", some "alice", some "bob"⟩ =
      ((.error "Message subject cannot be empty.", 400), ⟨[], [], 1⟩) := by
  rfl

/-- C5 amended: for every send request whose subject, sender and
recipient fields are non-empty and whose sender or recipient is not a
registered user, `handle_send_email` answers 404 (UserNotFound) and the
store is unchanged; with an empty required field the 400 MissingField
error fires first instead. -/
theorem c5_missing_user_404_no_insert (s : Store) (now : Int)
    (subj sender recip : String) (body : Option String)
    (hsubj : subj ≠ "") (hsender : sender ≠ "") (hrecip : recip ≠ "")
    (hmiss : user_exists s sender = false ∨ user_exists s recip = false) :
    (handle_send_email s now ⟨some subj, body, some sender, some recip⟩).1.2
        = 404 ∧
    (handle_send_email s now ⟨some subj, body, some sender, some recip⟩).2
        = s := by
  cases hre : user_exists s recip with
  | false =>
    constructor <;>
      simp [handle_send_email, create_email, fetch_send_args,
        _validate_send_args, check_valid_users, hre,
        String.isEmpty_iff, hsubj, hsender, hrecip]
  | true =>
    have hse : user_exists s sender = false := by
      rcases hmiss with h | h
      · exact h
      · rw [h] at hre
        exact (Bool.false_ne_true hre).elim
    constructor <;>
      simp [handle_send_email, create_email, fetch_send_args,
        _validate_send_args, check_valid_users, hre, hse,
        String.isEmpty_iff, hsubj, hsender, hrecip]

/-- C5 amended witness: sender "ghost" against a store holding only
"bob". -/
theorem c5_missing_user_404_no_insert_witness :
    (handle_send_email ⟨[⟨"bob", "pw"⟩], [], 1⟩ 0
        ⟨some "s", some "b", some "ghost", some "bob"⟩).1.2 = 404 ∧
    (handle_send_email ⟨[⟨"bob", "pw"⟩], [], 1⟩ 0
        ⟨some "s", some "b", some "ghost", some "bob"⟩).2 =
      ⟨[⟨"bob", "pw"⟩], [], 1⟩ :=
  c5_missing_user_404_no_insert _ 0 "s" "ghost" "bob" (some "b")
    (by decide) (by decide) (by decide) (Or.inl (by decide))

/-- C6 counterexample: deleting id -1 (negative) from a store holding
one email answers 404 "Email with ID -1 not found in database." via the
existence check, not the 400 InvalidId error the claim requires —
`handle_delete_email` never calls `check_email_id`.  (This matches the
repository's own test `test_delete_non_existent_email`, which expects
404 for id -1.) -/
theorem c6_counterexample :
    handle_delete_email
        ⟨[], [⟨1, some "a", some "b", some "x", some "y", 10⟩], 2⟩
        (some (-1)) =
      ((.error "Email with ID -1 not found in database.", 404),
       ⟨[], [⟨1, some "a", some "b", some "x", some "y", 10⟩], 2⟩) := by
  rfl

/-- C6 amended: the delete flow performs no id validation; an absent id,
or a negative id when all stored ids are nonnegative, falls through to
the existence check and fails with the 404 MessageNotFound error, the
store unchanged. -/
theorem c6_delete_no_id_validation (s : Store) (email_id : Option Int)
    (hbad : email_id = none ∨ ∃ i, email_id = some i ∧ i < 0)
    (hids : ∀ r ∈ s.emails, 0 ≤ r.id) :
    handle_delete_email s email_id =
      ((.error ("Email with ID " ++ idStr email_id ++
        " not found in database."), 404), s) := by
  have hex : email_exists s email_id = false := by
    rcases hbad with h | ⟨i, hi, hneg⟩
    · simp [h, email_exists]
    · subst hi
      simp only [email_exists]
      rw [Bool.eq_false_iff]
      intro hany
      rw [List.any_eq_true] at hany
      obtain ⟨e, he, hq⟩ := hany
      rw [beq_iff_eq] at hq
      have := hids e he
      omega
  simp [handle_delete_email, _validate_email_exists, hex]

/-- C6 amended witness: an absent id against a store holding one email. -/
theorem c6_delete_no_id_validation_witness :
    handle_delete_email
        ⟨[], [⟨1, some "a", some "b", some "x", some "y", 10⟩], 2⟩ none =
      ((.error "Email with ID None not found in database.", 404),
       ⟨[], [⟨1, some "a", some "b", some "x", some "y", 10⟩], 2⟩) :=
  c6_delete_no_id_validation _ none (Or.inl rfl) (by decide)

/-- C7: for every nonnegative id of an existing message,
`handle_get_email` answers status 201 (not the 200 the claim states)
and its payload is the literal single-column row `1` produced by the
repository's `SELECT 1 FROM email WHERE id = ?` — not the stored
message row with all its fields. -/
theorem c7_get_message_201_literal_row (s : Store) (i : Int)
    (hpos : 0 ≤ i) (hex : email_exists s (some i) = true) :
    handle_get_email s (some i) = (.emailPayload 1, 201) := by
  simp [handle_get_email, check_email_id, not_lt.mpr hpos,
    _get_email, get_email, hex]

/-- C7 witness: id 1 against a store holding the email with id 1. -/
theorem c7_get_message_201_literal_row_witness :
    handle_get_email
        ⟨[], [⟨1, some "a", some "b", some "x", some "y", 10⟩], 2⟩
        (some 1) =
      (.emailPayload 1, 201) :=
  c7_get_message_201_literal_row _ 1 (by decide) (by decide)

/-- C10: when the existence check has succeeded on the same store, the
delete affects at least one row, so `_delete_email_from_db` never takes
its `ValueError` branch and the handler answers 200. -/
theorem c10_delete_store_error_unreachable (s : Store) (email_id : Option Int)
    (hex : email_exists s email_id = true) :
    ∃ s2, _delete_email_from_db s email_id = .ok s2 ∧
      handle_delete_email s email_id =
        ((.message ("Email with id " ++ idStr email_id ++
          " was successfully deleted from the database."), 200), s2) := by
  cases email_id with
  | none => simp [email_exists] at hex
  | some i =>
    have hpos : 0 < (s.emails.filter (fun e => e.id == i)).length := by
      simp only [email_exists] at hex
      rw [List.any_eq_true] at hex
      obtain ⟨e, he, hq⟩ := hex
      exact List.length_pos.mpr
        (List.ne_nil_of_mem (List.mem_filter.mpr ⟨he, hq⟩))
    refine ⟨⟨s.users, s.emails.filter (fun e => !(e.id == i)), s.nextId⟩, ?_, ?_⟩
    · simp [_delete_email_from_db, delete_email_repo, Nat.not_le.mpr hpos]
    · simp [handle_delete_email, _validate_email_exists, hex,
        _delete_email_from_db, delete_email_repo, Nat.not_le.mpr hpos]

/-- C10 witness: deleting the existing id 1. -/
theorem c10_delete_store_error_unreachable_witness :
    ∃ s2, _delete_email_from_db
        ⟨[], [⟨1, some "a", some "b", some "x", some "y", 10⟩], 2⟩
        (some 1) = .ok s2 ∧
      handle_delete_email
          ⟨[], [⟨1, some "a", some "b", some "x", some "y", 10⟩], 2⟩
          (some 1) =
        ((.message ("Email with id " ++ idStr (some 1) ++
          " was successfully deleted from the database."), 200), s2) :=
  c10_delete_store_error_unreachable _ (some 1) (by decide)

/-- C9: for a username and password that pass field validation (length
at least 2 each), registering the username a second time fails with the
400 "Username already exists." error and leaves the store as it was
after the first call; and (second conjunct) when the password fails
field validation, `_check_user_validity` reports the field error for
every store — including stores already holding the username — so the
existence check only runs after field validation succeeds. -/
theorem c9_register_twice_username_taken (s : Store) (u p : String)
    (hu : 2 ≤ u.length) (hp : 2 ≤ p.length) :
    handle_register_user (handle_register_user s ⟨some u, some p⟩).2
        ⟨some u, some p⟩ =
      ((.error "Username already exists.", 400),
       (handle_register_user s ⟨some u, some p⟩).2) ∧
    (∀ s2 q, q ≠ "" → q.length < 2 →
      _check_user_validity s2 u q =
        .error (.valueError "The password must be at least 2 characters long.")) := by
  have hu0 : u.isEmpty = false := by
    rw [Bool.eq_false_iff]
    intro h
    rw [String.isEmpty_iff] at h
    subst h
    exact absurd hu (by decide)
  have hp0 : p.isEmpty = false := by
    rw [Bool.eq_false_iff]
    intro h
    rw [String.isEmpty_iff] at h
    subst h
    exact absurd hp (by decide)
  have hun : ¬ u.length < 2 := Nat.not_lt.mpr hu
  have hpn : ¬ p.length < 2 := Nat.not_lt.mpr hp
  constructor
  · cases he : user_exists s u with
    | true =>
      have h1 : handle_register_user s ⟨some u, some p⟩ =
          ((.error "Username already exists.", 400), s) := by
        simp [handle_register_user, create_user, _fetch_register_args,
          _check_user_validity, _check_username_validity,
          _check_password_validity, hu0, hp0, hun, hpn, he]
      rw [h1]
      simp [handle_register_user, create_user, _fetch_register_args,
        _check_user_validity, _check_username_validity,
        _check_password_validity, hu0, hp0, hun, hpn, he]
    | false =>
      have h1 : handle_register_user s ⟨some u, some p⟩ =
          ((.message ("User " ++ u ++ " registered successfully."), 201),
           { s with users := s.users ++ [⟨u, p⟩] }) := by
        simp [handle_register_user, create_user, _fetch_register_args,
          _check_user_validity, _check_username_validity,
          _check_password_validity, _register_user, register_user_repo,
          hu0, hp0, hun, hpn, he]
      rw [h1]
      have h2 : user_exists { s with users := s.users ++ [⟨u, p⟩] } u = true := by
        simp [user_exists, List.any_append]
      simp [handle_register_user, create_user, _fetch_register_args,
        _check_user_validity, _check_username_validity,
        _check_password_validity, hu0, hp0, hun, hpn, h2]
  · intro s2 q hq0 hq2
    have hq0' : q.isEmpty = false := by
      rw [Bool.eq_false_iff]
      intro h
      rw [String.isEmpty_iff] at h
      exact hq0 h
    simp [_check_user_validity, _check_username_validity,
      _check_password_validity, hu0, hun, hq0', hq2]

/-- C9 witness: registering "tester1"/"1234" twice against the empty
store, plus the field-validation ordering at password "x". -/
theorem c9_register_twice_username_taken_witness :
    handle_register_user
        (handle_register_user ⟨[], [], 1⟩ ⟨some "tester1", some "1234"⟩).2
        ⟨some "tester1", some "1234"⟩ =
      ((.error "Username already exists.", 400),
       (handle_register_user ⟨[], [], 1⟩ ⟨some "tester1", some "1234"⟩).2) ∧
    (∀ s2 q, q ≠ "" → q.length < 2 →
      _check_user_validity s2 "tester1" q =
        .error (.valueError "The password must be at least 2 characters long.")) :=
  c9_register_twice_username_taken ⟨[], [], 1⟩ "tester1" "1234"
    (by decide) (by decide)

/-- The unbounded inbox fetch is sorted by `created_at` descending. -/
theorem sorted_get_all_emails_to_user (s : Store) (r : String) :
    (get_all_emails_to_user s r).Pairwise createdDesc :=
  List.sorted_insertionSort createdDesc _

/-- The paginated inbox fetch is sorted by `created_at` descending. -/
theorem sorted_get_indexed_emails_to_user (s : Store) (limit offset : Int)
    (r : String) :
    (get_indexed_emails_to_user s limit offset r).Pairwise createdDesc := by
  have hd : ((get_all_emails_to_user s r).drop offset.toNat).Pairwise createdDesc :=
    (sorted_get_all_emails_to_user s r).sublist (List.drop_sublist _ _)
  by_cases h : limit < 0
  · simpa [get_indexed_emails_to_user, h] using hd
  · simpa [get_indexed_emails_to_user, h] using
      hd.sublist (List.take_sublist _ _)

/-- C4: any list that `retrieve_emails` returns is sorted by
`created_at` non-increasing, and it is exactly the repository's output
for the corresponding branch (paginated when both bounds are present,
unbounded otherwise) — the service does not re-sort. -/
theorem c4_list_inbox_sorted (s : Store) (start stop : Option Int)
    (recipient : String) (l : List EmailRow)
    (h : retrieve_emails s start stop recipient = .ok l) :
    l.Pairwise (fun a b => b.created_at ≤ a.created_at) ∧
    ((∃ limit offset, l = get_indexed_emails_to_user s limit offset recipient) ∨
      l = get_all_emails_to_user s recipient) := by
  cases start with
  | none =>
    simp only [retrieve_emails, Except.ok.injEq] at h
    subst h
    exact ⟨sorted_get_all_emails_to_user s recipient, Or.inr rfl⟩
  | some a =>
    cases stop with
    | none =>
      simp only [retrieve_emails, Except.ok.injEq] at h
      subst h
      exact ⟨sorted_get_all_emails_to_user s recipient, Or.inr rfl⟩
    | some b =>
      simp only [retrieve_emails] at h
      cases hlo : get_limit_and_offset a b with
      | error e =>
        rw [hlo] at h
        cases h
      | ok lo =>
        obtain ⟨limit, offset⟩ := lo
        rw [hlo] at h
        simp only [Except.ok.injEq] at h
        subst h
        exact ⟨sorted_get_indexed_emails_to_user s limit offset recipient,
               Or.inl ⟨limit, offset, rfl⟩⟩

/-- C4 witness: the unbounded inbox of "bob" on a three-email store. -/
theorem c4_list_inbox_sorted_witness :
    ([⟨2, some "c", some "d", some "x", some "bob", 30⟩,
      ⟨3, some "e", some "f", some "x", some "bob", 20⟩,
      ⟨1, some "a", some "b", some "x", some "bob", 10⟩] :
        List EmailRow).Pairwise (fun a b => b.created_at ≤ a.created_at) ∧
    ((∃ limit offset,
        ([⟨2, some "c", some "d", some "x", some "bob", 30⟩,
          ⟨3, some "e", some "f", some "x", some "bob", 20⟩,
          ⟨1, some "a", some "b", some "x", some "bob", 10⟩] : List EmailRow) =
          get_indexed_emails_to_user
            ⟨[⟨"bob", "pw"⟩],
             [⟨1, some "a", some "b", some "x", some "bob", 10⟩,
              ⟨2, some "c", some "d", some "x", some "bob", 30⟩,
              ⟨3, some "e", some "f", some "x", some "bob", 20⟩], 4⟩
            limit offset "bob") ∨
      ([⟨2, some "c", some "d", some "x", some "bob", 30⟩,
        ⟨3, some "e", some "f", some "x", some "bob", 20⟩,
        ⟨1, some "a", some "b", some "x", some "bob", 10⟩] : List EmailRow) =
        get_all_emails_to_user
          ⟨[⟨"bob", "pw"⟩],
           [⟨1, some "a", some "b", some "x", some "bob", 10⟩,
            ⟨2, some "c", some "d", some "x", some "bob", 30⟩,
            ⟨3, some "e", some "f", some "x", some "bob", 20⟩], 4⟩ "bob") :=
  c4_list_inbox_sorted
    ⟨[⟨"bob", "pw"⟩],
     [⟨1, some "a", some "b", some "x", some "bob", 10⟩,
      ⟨2, some "c", some "d", some "x", some "bob", 30⟩,
      ⟨3, some "e", some "f", some "x", some "bob", 20⟩], 4⟩
    none none "bob"
    [⟨2, some "c", some "d", some "x", some "bob", 30⟩,
     ⟨3, some "e", some "f", some "x", some "bob", 20⟩,
     ⟨1, some "a", some "b", some "x", some "bob", 10⟩]
    (by rfl)

end SimpleMessager
